import Mathlib

/-!
Verification development for the send-side stream engine of prquic-go
(a QUIC implementation extended with a Partial Reliability policy layer).

The Go source is shallowly embedded:
* bytes are `Nat` values < 256, byte strings are `List Nat`;
* Go's `protocol.ByteCount` (an `int64`) is embedded as `Int`, `uint64`
  fields as `Nat`;
* Go runtime panics (nil-pointer dereference, negative slice bound,
  `panic(...)`) are explicit `crash`-style constructors;
* the per-stream mutex-guarded record `sendStream` is a state structure,
  each method a function from state (plus the inputs read from external
  collaborators) to state plus the events emitted upward.
-/

/-! ## QUIC variable-length integers (quicvarint) -/

def maxVarInt1 : Nat := 63
def maxVarInt2 : Nat := 16383
def maxVarInt4 : Nat := 1073741823
def maxVarInt8 : Nat := 4611686018427387903

/-- Go `quicvarint.Len`: the number of bytes the varint encoding of `i` takes.
The Go function panics above `maxVarInt8`; that branch is marked by `0`
and is never relied on. -/
def varintLen (i : Nat) : Int :=
  if i ≤ maxVarInt1 then 1
  else if i ≤ maxVarInt2 then 2
  else if i ≤ maxVarInt4 then 4
  else if i ≤ maxVarInt8 then 8
  else 0

/-- Go `quicvarint.Append`: the bytes of the varint encoding of `i`
(the Go function appends them to a buffer; we return just the bytes).
The Go function panics above `maxVarInt8`; that branch is `[]`. -/
def varintAppend (i : Nat) : List Nat :=
  if i ≤ maxVarInt1 then [i]
  else if i ≤ maxVarInt2 then [0x40 + i / 2^8, i % 2^8]
  else if i ≤ maxVarInt4 then
    [0x80 + i / 2^24, i / 2^16 % 2^8, i / 2^8 % 2^8, i % 2^8]
  else if i ≤ maxVarInt8 then
    [0xc0 + i / 2^56, i / 2^48 % 2^8, i / 2^40 % 2^8, i / 2^32 % 2^8,
     i / 2^24 % 2^8, i / 2^16 % 2^8, i / 2^8 % 2^8, i % 2^8]
  else []

/-- Go `quicvarint.Read` on a byte reader: decode one varint, return the value
and the remaining bytes; `none` on truncation. -/
def varintRead (bs : List Nat) : Option (Nat × List Nat) :=
  match bs with
  | [] => none
  | b :: r =>
    if b < 0x40 then some (b, r)
    else if b < 0x80 then
      match r with
      | b2 :: r2 => some ((b - 0x40) * 2^8 + b2, r2)
      | [] => none
    else if b < 0xc0 then
      match r with
      | b2 :: b3 :: b4 :: r4 =>
        some ((b - 0x80) * 2^24 + b2 * 2^16 + b3 * 2^8 + b4, r4)
      | _ => none
    else
      match r with
      | b2 :: b3 :: b4 :: b5 :: b6 :: b7 :: b8 :: r7 =>
        some ((b - 0xc0) * 2^56 + b2 * 2^48 + b3 * 2^40 + b4 * 2^32 +
              b5 * 2^24 + b6 * 2^16 + b7 * 2^8 + b8, r7)
      | _ => none

/-- Go's `uint64(i)` cast applied to an `int64` byte count. -/
def intToUInt64 (i : Int) : Nat := (i % (2:Int)^64).toNat

/-! ## The PR_STREAM frame (internal/wire/pr_stream_frame.go) -/

/-- The struct `wire.PRStreamFrame`.  The wire file spells the policy parameter
`ptdaC`; the send-stream file accesses it as the exported `PtdaC`
(two revisions of the struct exist); we use the exported spelling.
The pooling flag `fromPool` is memory management and is not modelled. -/
structure PRStreamFrame where
  StreamID : Nat
  Offset : Int
  Data : List Nat
  Fin : Bool
  DataLenPresent : Bool
  PTDA : Nat
  P : Bool
  T : Bool
  D : Bool
  A : Bool
  PtdaC : Nat
  deriving Repr, DecidableEq

/-- Embeds `PRStreamFrame.DataLen`. -/
def PRStreamFrame.DataLen (f : PRStreamFrame) : Int := (f.Data.length : Int)

/-- Embeds `PRStreamFrame.Length`: total encoded length of the frame. -/
def PRStreamFrame.length (f : PRStreamFrame) : Int :=
  let l0 : Int := 1 + varintLen f.StreamID
  let l1 := if f.Offset ≠ 0 then l0 + varintLen (intToUInt64 f.Offset) else l0
  let l2 := if f.DataLenPresent then l1 + varintLen f.Data.length else l1
  l2 + 1 + varintLen f.PtdaC + f.Data.length

/-- Embeds `PRStreamFrame.Append` (the encoder): `none` is the
"attempting to write empty frame without FIN" error.  Note the source
appends `byte(f.ptdaC)` — a single truncated byte — for the policy
parameter, while `Length` above counts `quicvarint.Len(f.ptdaC)` bytes
and the parser below reads a varint. -/
def PRStreamFrame.append (f : PRStreamFrame) : Option (List Nat) :=
  if f.Data.length = 0 ∧ f.Fin = false then none
  else
    let t0 : Nat := 0x8
    let t1 := if f.Fin then t0 ^^^ 0b1 else t0
    let t2 := if f.DataLenPresent then t1 ^^^ 0b10 else t1
    let t3 := if f.Offset ≠ 0 then t2 ^^^ 0b100 else t2
    some ([t3] ++ varintAppend f.StreamID
      ++ (if f.Offset ≠ 0 then varintAppend (intToUInt64 f.Offset) else [])
      ++ (if f.DataLenPresent then varintAppend f.Data.length else [])
      ++ [f.PTDA] ++ [f.PtdaC % 2^8]
      ++ f.Data)

/-- Outcome of `parsePRStreamFrame`.  `nilCrash` is the Go nil-pointer
dereference: the source declares `var frame *PRStreamFrame` and then
executes `frame.PTDA, err = r.ReadByte()` before ever allocating the
frame. -/
inductive PRStreamParseResult
  | ok (f : PRStreamFrame)
  | error
  | nilCrash
  deriving Repr, DecidableEq

/-- Embeds `parsePRStreamFrame`: header fields are read in source order
(type byte, stream id, optional offset, optional data length); the next
statement assigns a field of the still-nil frame pointer, so every input
that gets past the header reaches the nil dereference. -/
def parsePRStreamFrame (bs : List Nat) : PRStreamParseResult :=
  match bs with
  | [] => .error
  | typeByte :: r1 =>
    match varintRead r1 with
    | none => .error
    | some (_streamID, r2) =>
      match (if typeByte &&& 0b100 > 0 then varintRead r2 else some (0, r2)) with
      | none => .error
      | some (_offset, r3) =>
        match (if typeByte &&& 0b10 > 0 then varintRead r3
               else some (r3.length, r3)) with
        | none => .error
        | some (_dataLen, _r4) => .nilCrash

/-- Embeds `PRStreamFrame.MaxDataLen`.  After the header-exceeds-budget check the
source runs `headerLen--` and `headerLen -= quicvarint.Len(ptdaC)`,
subtracting the PR overhead from the header length (and hence adding it
to the space computed for data). -/
def PRStreamFrame.maxDataLen (f : PRStreamFrame) (maxSize : Int) : Int :=
  let h0 : Int := 1 + varintLen f.StreamID
  let h1 := if f.Offset ≠ 0 then h0 + varintLen (intToUInt64 f.Offset) else h0
  let h2 := if f.DataLenPresent then h1 + 1 else h1
  if h2 > maxSize then 0
  else
    let h3 := h2 - 1 - varintLen f.PtdaC
    let m := maxSize - h3
    if f.DataLenPresent ∧ varintLen (intToUInt64 m) ≠ 1 then m - 1 else m

/-- Outcome of `PRStreamFrame.MaybeSplitOffFrame`.  `sliceCrash` is the Go
runtime panic raised by `f.Data = f.Data[:len(new.Data)-n]` when the
computed head size `n` exceeds the frame's data length (negative slice
bound). -/
inductive PRSplitResult
  | noSplit
  | needsSplitNoFrame
  | splitFrames (head tail : PRStreamFrame)
  | sliceCrash
  deriving Repr, DecidableEq

/-- Embeds `PRStreamFrame.MaybeSplitOffFrame`: the returned head keeps the
offset and the first `n` data bytes with FIN cleared; the queue-resident
frame is mutated into the tail (offset advanced by `n`, remaining data).
PR fields are copied into the head verbatim. -/
def PRStreamFrame.maybeSplitOffFrame (f : PRStreamFrame) (maxSize : Int) :
    PRSplitResult :=
  if maxSize ≥ f.length then .noSplit
  else
    let n := f.maxDataLen maxSize
    if n = 0 then .needsSplitNoFrame
    else if (f.Data.length : Int) - n < 0 then .sliceCrash
    else
      .splitFrames
        { f with Fin := false, Data := f.Data.take n.toNat }
        { f with Offset := f.Offset + n, Data := f.Data.drop n.toNat }

/-! ## The PR_ACK_NOTIFY frame (internal/wire/pr_ack_notify_frame.go)

Two revisions of this file exist in the repository.  The struct used by
the send stream (exported `PtdaC`, `PRDataLen`) is the one whose `Append`
writes the type byte `0x58` and the field order
stream id, PTDA, ptda_c, optional offset, pr_data_len; that revision is
embedded here. -/

structure PRAckNotifyFrame where
  StreamID : Nat
  Offset : Int
  PRDataLen : Nat
  Fin : Bool
  DataLenPresent : Bool
  PTDA : Nat
  P : Bool
  T : Bool
  D : Bool
  A : Bool
  PtdaC : Nat
  deriving Repr, DecidableEq

/-- Embeds `PRAckNotifyFrame.Append` (the encoder of the live revision). -/
def PRAckNotifyFrame.append (f : PRAckNotifyFrame) : List Nat :=
  let t0 : Nat := 0x58
  let t1 := if f.Fin then t0 ^^^ 0b1 else t0
  let t2 := if f.DataLenPresent then t1 ^^^ 0b10 else t1
  let t3 := if f.Offset ≠ 0 then t2 ^^^ 0b100 else t2
  [t3] ++ varintAppend f.StreamID
    ++ [f.PTDA] ++ varintAppend f.PtdaC
    ++ (if f.Offset ≠ 0 then varintAppend (intToUInt64 f.Offset) else [])
    ++ varintAppend f.PRDataLen

example : varintAppend 10000 = [0x67, 0x10] := by decide
example : varintRead [0x67, 0x10, 5] = some (10000, [5]) := by decide
example : parsePRStreamFrame [0x48, 0x00] = .nilCrash := by decide

/-! ## The plain STREAM frame

The plain `wire.StreamFrame` struct is used throughout the send stream;
its own codec file (internal/wire/stream_frame.go) is not part of the
sources, so the three codec operations the send stream calls on it are
modelled from the spec (§4.1). -/

structure StreamFrame where
  StreamID : Nat
  Offset : Int
  Data : List Nat
  Fin : Bool
  DataLenPresent : Bool
  deriving Repr, DecidableEq

/-- Embeds `StreamFrame.DataLen`. -/
def StreamFrame.DataLen (f : StreamFrame) : Int := (f.Data.length : Int)

/-- Modelled from the spec: `encoded_length` for a plain STREAM frame
(internal/wire/stream_frame.go is missing from the sources) — a pure
function of header presence and data length (§4.1). -/
def StreamFrame.length (f : StreamFrame) : Int :=
  let l0 : Int := 1 + varintLen f.StreamID
  let l1 := if f.Offset ≠ 0 then l0 + varintLen (intToUInt64 f.Offset) else l0
  let l2 := if f.DataLenPresent then l1 + varintLen f.Data.length else l1
  l2 + f.Data.length

/-- Modelled from the spec: `max_data_len` for a plain STREAM frame
(internal/wire/stream_frame.go is missing from the sources) — 0 if the
header alone exceeds the budget, else the maximum payload fitting within
the budget, accounting for the length varint rounding up by one (§4.1). -/
def StreamFrame.maxDataLen (f : StreamFrame) (maxSize : Int) : Int :=
  let h0 : Int := 1 + varintLen f.StreamID
  let h1 := if f.Offset ≠ 0 then h0 + varintLen (intToUInt64 f.Offset) else h0
  let h2 := if f.DataLenPresent then h1 + 1 else h1
  if h2 > maxSize then 0
  else
    let m := maxSize - h2
    if f.DataLenPresent ∧ varintLen (intToUInt64 m) ≠ 1 then m - 1 else m

inductive StreamSplitResult
  | noSplit
  | needsSplitNoFrame
  | splitFrames (head tail : StreamFrame)
  deriving Repr, DecidableEq

/-- Modelled from the spec: `maybe_split` for a plain STREAM frame
(internal/wire/stream_frame.go is missing from the sources) — if the
frame fits, no split; if the budget is below the minimum header size,
report a required split with no frame; otherwise a head sized to fit
with FIN cleared, and a tail carrying the remaining bytes at
`offset + head_len` (§4.1). -/
def StreamFrame.maybeSplitOffFrame (f : StreamFrame) (maxSize : Int) :
    StreamSplitResult :=
  if maxSize ≥ f.length then .noSplit
  else
    let n := f.maxDataLen maxSize
    if n ≤ 0 then .needsSplitNoFrame
    else
      .splitFrames
        { f with Fin := false, Data := f.Data.take n.toNat }
        { f with Offset := f.Offset + n, Data := f.Data.drop n.toNat }

/-! ## Process-wide PR configuration (pr_policy.go) -/

def PR_ENABLED : Bool := true
def PTDA : Nat := 0x80
def PtadC : Nat := 0

/-! ## The send stream (send_stream.go) -/

/-- The mutex-guarded mutable state of `sendStream`.  Error causes are
abstracted to their presence (`closeForShutdownErr` models
`closeForShutdownErr != nil`); the context, channels and deadline are
scheduling machinery outside the per-operation state transitions. -/
structure SendStreamState where
  numOutstandingFrames : Int
  retransmissionQueue : List StreamFrame
  prAckNotifyRetransmissionQueue : List PRAckNotifyFrame
  streamID : Nat
  writeOffset : Int
  closedForShutdown : Bool
  closeForShutdownErr : Bool
  finishedWriting : Bool
  canceledWrite : Bool
  finSent : Bool
  completed : Bool
  dataForWriting : List Nat
  nextFrame : Option StreamFrame
  deriving Repr, DecidableEq

/-- Upward notifications emitted by the stream (the `streamSender`
interface).  The internal writer wake (`signalWrite`) is not an upward
event and is not recorded. -/
inductive SendEvent
  | onHasStreamData
  | onStreamCompleted
  | queueStreamDataBlocked (offset : Int)
  | queueResetStream (finalSize : Int)
  deriving Repr, DecidableEq

/-- Result of one mutating operation: the new state and the upward events
in emission order, or a runtime panic (`crash`). -/
inductive StepOut
  | ok (s : SendStreamState) (evs : List SendEvent)
  | crash
  deriving Repr, DecidableEq

/-- Embeds `isNewlyCompleted`: evaluates the completion predicate, latches
`completed`, and reports whether it latched just now. -/
def isNewlyCompleted (s : SendStreamState) : SendStreamState × Bool :=
  let c := (s.finSent || s.canceledWrite) && s.numOutstandingFrames == 0 &&
    s.retransmissionQueue.isEmpty
  if c && !s.completed then ({ s with completed := true }, true)
  else (s, false)

/-- Embeds `frameAcked` (the `OnAcked` callback for plain STREAM frames); the
frame argument is only returned to its pool.  Crashes when
`numOutstandingFrames` underflows. -/
def frameAcked (s : SendStreamState) : StepOut :=
  if s.canceledWrite then .ok s []
  else
    let s1 := { s with numOutstandingFrames := s.numOutstandingFrames - 1 }
    if s1.numOutstandingFrames < 0 then .crash
    else
      let (s2, nc) := isNewlyCompleted s1
      .ok s2 (if nc then [.onStreamCompleted] else [])

/-- Embeds `prStreamframeAcked` (the `OnAcked` callback for PR_STREAM frames);
same body as `frameAcked` after the pool return. -/
def prStreamframeAcked (s : SendStreamState) : StepOut :=
  if s.canceledWrite then .ok s []
  else
    let s1 := { s with numOutstandingFrames := s.numOutstandingFrames - 1 }
    if s1.numOutstandingFrames < 0 then .crash
    else
      let (s2, nc) := isNewlyCompleted s1
      .ok s2 (if nc then [.onStreamCompleted] else [])

/-- Embeds `queueRetransmission` (the `OnLost` callback for plain STREAM
frames). -/
def queueRetransmission (s : SendStreamState) (f : StreamFrame) : StepOut :=
  let sf := { f with DataLenPresent := true }
  if s.canceledWrite then .ok s []
  else
    let s1 := { s with
      retransmissionQueue := s.retransmissionQueue ++ [sf],
      numOutstandingFrames := s.numOutstandingFrames - 1 }
    if s1.numOutstandingFrames < 0 then .crash
    else .ok s1 [.onHasStreamData]

/-- Embeds `prAckNotifyQueueRetransmission`: append the PR_ACK_NOTIFY frame to
its queue and decrement the outstanding count. -/
def prAckNotifyQueueRetransmission (s : SendStreamState)
    (f : PRAckNotifyFrame) : StepOut :=
  let nf := { f with DataLenPresent := true }
  if s.canceledWrite then .ok s []
  else
    let s1 := { s with
      prAckNotifyRetransmissionQueue :=
        s.prAckNotifyRetransmissionQueue ++ [nf],
      numOutstandingFrames := s.numOutstandingFrames - 1 }
    if s1.numOutstandingFrames < 0 then .crash
    else .ok s1 [.onHasStreamData]

/-- Embeds `prQueueRetransmission` (the `OnLost` callback for PR_STREAM frames).
`r` is the value `rand.Intn(10000)` returned on the draw.  Note the
source's `switch` discriminates on `frame.PtdaC` — the policy parameter —
against the PTDA bit constants `0x80/0x40/0x20/0x10`; the `0x40`, `0x20`
and `0x10` cases are empty stubs. -/
def prQueueRetransmission (s : SendStreamState) (frame : PRStreamFrame)
    (r : Nat) : StepOut :=
  let pr_retran_enabled :=
    if frame.PtdaC = 0x80 then decide (frame.PtdaC > r) else false
  if pr_retran_enabled = false then
    queueRetransmission s
      { StreamID := frame.StreamID, Offset := frame.Offset,
        Data := frame.Data, Fin := frame.Fin,
        DataLenPresent := frame.DataLenPresent }
  else
    prAckNotifyQueueRetransmission s
      { StreamID := frame.StreamID, Offset := frame.Offset,
        PRDataLen := frame.Data.length, Fin := frame.Fin,
        DataLenPresent := frame.DataLenPresent,
        PTDA := frame.PTDA, P := frame.P, T := frame.T, D := frame.D,
        A := frame.A, PtdaC := frame.PtdaC }

/-- Embeds `Close()`: state change and upward events (the returned `error` is
reported separately by `closeResultIsError`). -/
def closeStream (s : SendStreamState) : StepOut :=
  if s.closedForShutdown then .ok s []
  else if s.canceledWrite then .ok s []
  else .ok { s with finishedWriting := true } [.onHasStreamData]

/-- Whether `Close()` returns a non-nil error (close after cancel). -/
def closeResultIsError (s : SendStreamState) : Bool :=
  !s.closedForShutdown && s.canceledWrite

/-- Embeds `cancelWriteImpl` (also the body of `CancelWrite` and of
`handleStopSendingFrame`). -/
def cancelWriteImpl (s : SendStreamState) : StepOut :=
  if s.canceledWrite then .ok s []
  else
    let s1 := { s with
      canceledWrite := true
      numOutstandingFrames := 0
      retransmissionQueue := [] }
    let (s2, nc) := isNewlyCompleted s1
    .ok s2 ([.queueResetStream s2.writeOffset] ++
      if nc then [.onStreamCompleted] else [])

/-- Embeds `handleStopSendingFrame`: peer-initiated cancel, delegates to
`cancelWriteImpl`. -/
def handleStopSendingFrame (s : SendStreamState) : StepOut :=
  cancelWriteImpl s

/-- Embeds `closeForShutdown`. -/
def closeForShutdownFn (s : SendStreamState) : StepOut :=
  .ok { s with closedForShutdown := true, closeForShutdownErr := true } []

/-! ## Frame assembly: `popStreamFrame` and its helpers -/

def MaxPacketBufferSize : Int := 1452

/-- Embeds `canBufferStreamFrame`. -/
def canBufferStreamFrame (s : SendStreamState) : Bool :=
  let l : Int := match s.nextFrame with
    | some nf => nf.DataLen
    | none => 0
  l + s.dataForWriting.length ≤ MaxPacketBufferSize

/-- Embeds `getDataForWriting`: move up to `maxBytes` bytes of `dataForWriting`
into the frame's data (the writer wake `signalWrite` is internal and not
recorded). -/
def getDataForWriting (s : SendStreamState) (f : StreamFrame)
    (maxBytes : Int) : StreamFrame × SendStreamState :=
  if (s.dataForWriting.length : Int) ≤ maxBytes then
    ({ f with Data := s.dataForWriting }, { s with dataForWriting := [] })
  else
    ({ f with Data := s.dataForWriting.take maxBytes.toNat },
     { s with dataForWriting := s.dataForWriting.drop maxBytes.toNat })

/-- Embeds `popNewStreamFrameWithoutBuffer`: fill a fresh frame from
`dataForWriting`; the returned flag is "has more data to send". -/
def popNewStreamFrameWithoutBuffer (s : SendStreamState) (f : StreamFrame)
    (maxBytes sendWindow : Int) : StreamFrame × SendStreamState × Bool :=
  let maxDataLen := f.maxDataLen maxBytes
  if maxDataLen = 0 then
    (f, s, !s.dataForWriting.isEmpty || s.nextFrame.isSome ||
      s.finishedWriting)
  else
    let (f1, s1) := getDataForWriting s f (min maxDataLen sendWindow)
    (f1, s1, !s1.dataForWriting.isEmpty || s1.nextFrame.isSome ||
      s1.finishedWriting)

/-- Embeds `popNewStreamFrame`: either detach (and possibly split) the buffered
`nextFrame`, or synthesize a fresh frame from `dataForWriting`. -/
def popNewStreamFrame (s : SendStreamState) (maxBytes sendWindow : Int) :
    Option StreamFrame × Bool × SendStreamState :=
  match s.nextFrame with
  | some nextFrame =>
    let s0 := { s with nextFrame := none }
    let maxDataLen := min sendWindow (nextFrame.maxDataLen maxBytes)
    if nextFrame.DataLen > maxDataLen then
      let tail : StreamFrame :=
        { StreamID := s0.streamID, Offset := s0.writeOffset + maxDataLen,
          Data := nextFrame.Data.drop maxDataLen.toNat, Fin := false,
          DataLenPresent := true }
      let head := { nextFrame with Data := nextFrame.Data.take maxDataLen.toNat }
      let s1 := { s0 with nextFrame := some tail }
      (some head, s1.nextFrame.isSome || !s1.dataForWriting.isEmpty, s1)
    else
      (some nextFrame, s0.nextFrame.isSome || !s0.dataForWriting.isEmpty, s0)
  | none =>
    let f0 : StreamFrame :=
      { StreamID := s.streamID, Offset := s.writeOffset, Data := [],
        Fin := false, DataLenPresent := true }
    let (f1, s1, hasMoreData) :=
      popNewStreamFrameWithoutBuffer s f0 maxBytes sendWindow
    if f1.Data.length = 0 ∧ f1.Fin = false then (none, hasMoreData, s1)
    else (some f1, hasMoreData, s1)

/-- Embeds `maybeGetRetransmission`: split or pop the head of the retransmission
queue; the flag is "has more retransmissions". -/
def maybeGetRetransmission (s : SendStreamState) (maxBytes : Int) :
    Option StreamFrame × Bool × SendStreamState :=
  match s.retransmissionQueue with
  | [] => (none, false, s)
  | f :: rest =>
    match f.maybeSplitOffFrame maxBytes with
    | .splitFrames head tail =>
      (some head, true, { s with retransmissionQueue := tail :: rest })
    | .needsSplitNoFrame => (none, true, s)
    | .noSplit =>
      (some f, decide (rest.length > 0),
       { s with retransmissionQueue := rest })

/-- Result of `popNewOrRetransmittedStreamFrame`: the frame (if any), the
"has more data" flag, the state and the events — or a runtime panic. -/
inductive PopInnerRes
  | ok (frame : Option StreamFrame) (hasMore : Bool) (s : SendStreamState)
      (evs : List SendEvent)
  | crash
  deriving Repr, DecidableEq

/-- The new-data portion of `popNewOrRetransmittedStreamFrame` (the code
after the retransmission branch).  `sendWindow`, `newlyBlocked` and
`blockedOffset` are the answers of the external flow controller.  The
source calls `f.DataLen()` on the frame returned by `popNewStreamFrame`
without a nil check, so a nil frame is a nil-pointer dereference. -/
def popStreamFrameNewData (s : SendStreamState)
    (maxBytes sendWindow : Int) (newlyBlocked : Bool) (blockedOffset : Int) :
    PopInnerRes :=
  if s.dataForWriting.isEmpty ∧ s.nextFrame = none then
    if s.finishedWriting ∧ ¬s.finSent then
      .ok (some { StreamID := s.streamID, Offset := s.writeOffset,
                  Data := [], DataLenPresent := true, Fin := true })
        false { s with finSent := true } []
    else .ok none false s []
  else if sendWindow = 0 then
    if newlyBlocked then
      .ok none false s [.queueStreamDataBlocked blockedOffset]
    else .ok none true s []
  else
    let (fOpt, hasMoreData, s1) := popNewStreamFrame s maxBytes sendWindow
    match fOpt with
    | none => .crash
    | some f =>
      let s2 := if f.DataLen > 0 then
          { s1 with writeOffset := s1.writeOffset + f.DataLen }
        else s1
      let fin := s2.finishedWriting && s2.dataForWriting.isEmpty &&
        s2.nextFrame.isNone && !s2.finSent
      let f2 := { f with Fin := fin }
      let s3 := if fin then { s2 with finSent := true } else s2
      .ok (some f2) hasMoreData s3 []

/-- Embeds `popNewOrRetransmittedStreamFrame`. -/
def popNewOrRetransmittedStreamFrame (s : SendStreamState)
    (maxBytes sendWindow : Int) (newlyBlocked : Bool) (blockedOffset : Int) :
    PopInnerRes :=
  if s.canceledWrite ∨ s.closeForShutdownErr then .ok none false s []
  else
    match s.retransmissionQueue with
    | _ :: _ =>
      let (f, hasMoreRetransmissions, s1) := maybeGetRetransmission s maxBytes
      if f.isSome ∨ hasMoreRetransmissions then
        match f with
        | none => .ok none true s1 []
        | some g => .ok (some g) true s1 []
      else popStreamFrameNewData s1 maxBytes sendWindow newlyBlocked
        blockedOffset
    | [] => popStreamFrameNewData s maxBytes sendWindow newlyBlocked
        blockedOffset

/-- Result of `popStreamFrame`: with PR enabled the frame is converted to
a PR_STREAM frame (and gets the PR loss/ack callbacks); otherwise the
plain frame is returned with the plain callbacks. -/
inductive PopOuterRes
  | okPR (f : PRStreamFrame) (hasMore : Bool) (s : SendStreamState)
      (evs : List SendEvent)
  | okPlain (f : StreamFrame) (hasMore : Bool) (s : SendStreamState)
      (evs : List SendEvent)
  | okNone (hasMore : Bool) (s : SendStreamState) (evs : List SendEvent)
  | crash
  deriving Repr, DecidableEq

/-- Embeds `popStreamFrame`: subtract the conservative PR overhead `1 + 8` from
the budget when PR is enabled, pop, count the frame as outstanding, and
stamp the process-wide `PTDA`/`PtadC` onto the converted frame. -/
def popStreamFrame (s : SendStreamState) (maxBytes sendWindow : Int)
    (newlyBlocked : Bool) (blockedOffset : Int) : PopOuterRes :=
  let pr_maxBytes := if PR_ENABLED then maxBytes - (1 + 8) else maxBytes
  match popNewOrRetransmittedStreamFrame s pr_maxBytes sendWindow
    newlyBlocked blockedOffset with
  | .crash => .crash
  | .ok none hasMore s1 evs => .okNone hasMore s1 evs
  | .ok (some f) hasMore s1 evs =>
    let s2 := { s1 with numOutstandingFrames := s1.numOutstandingFrames + 1 }
    if PR_ENABLED then
      .okPR
        { StreamID := f.StreamID, Offset := f.Offset, Data := f.Data,
          Fin := f.Fin, DataLenPresent := f.DataLenPresent,
          PTDA := PTDA, PtdaC := PtadC,
          P := decide (PTDA = 0x80), T := decide (PTDA = 0x40),
          D := decide (PTDA = 0x20), A := decide (PTDA = 0x10) }
        hasMore s2 evs
    else .okPlain f hasMore s2 evs

/-! ## `Write` entry checks -/

/-- The sticky error kinds `Write` can fail with at call entry. -/
inductive WriteErrKind
  | errWriteOnClosedStream
  | errWriteCanceled
  | errShutdown
  | errDeadline
  deriving Repr, DecidableEq

/-- The error checks at the entry of `Write`, in source order:
`finishedWriting`, then `canceledWrite`, then `closeForShutdownErr`,
then the expired deadline.  `deadlinePassed` abstracts
`!deadline.IsZero() && !time.Now().Before(deadline)`. -/
def writeEntryError (s : SendStreamState) (deadlinePassed : Bool) :
    Option WriteErrKind :=
  if s.finishedWriting then some .errWriteOnClosedStream
  else if s.canceledWrite then some .errWriteCanceled
  else if s.closeForShutdownErr then some .errShutdown
  else if deadlinePassed then some .errDeadline
  else none

/-! ## The operations as a step relation -/

/-- One mutating operation on the send stream, with the inputs supplied
by external collaborators: the lost/acked frame handed back by the loss
detector, the random draw `r` of the PR evaluator, and the flow
controller's answers for a pop. -/
inductive SendStreamOp
  | opFrameAcked
  | opPRStreamFrameAcked
  | opQueueRetransmission (f : StreamFrame)
  | opPRQueueRetransmission (f : PRStreamFrame) (r : Nat)
  | opPRAckNotifyQueueRetransmission (f : PRAckNotifyFrame)
  | opPopStreamFrame (maxBytes sendWindow : Int) (newlyBlocked : Bool)
      (blockedOffset : Int)
  | opClose
  | opCancelWrite
  | opCloseForShutdown
  | opHandleStopSending
  deriving Repr, DecidableEq

/-- Apply one operation to the state. -/
def applyOp (s : SendStreamState) (op : SendStreamOp) : StepOut :=
  match op with
  | .opFrameAcked => frameAcked s
  | .opPRStreamFrameAcked => prStreamframeAcked s
  | .opQueueRetransmission f => queueRetransmission s f
  | .opPRQueueRetransmission f r => prQueueRetransmission s f r
  | .opPRAckNotifyQueueRetransmission f => prAckNotifyQueueRetransmission s f
  | .opPopStreamFrame maxBytes sendWindow newlyBlocked blockedOffset =>
    match popStreamFrame s maxBytes sendWindow newlyBlocked blockedOffset with
    | .okPR _ _ s1 evs => .ok s1 evs
    | .okPlain _ _ s1 evs => .ok s1 evs
    | .okNone _ s1 evs => .ok s1 evs
    | .crash => .crash
  | .opClose => closeStream s
  | .opCancelWrite => cancelWriteImpl s
  | .opCloseForShutdown => closeForShutdownFn s
  | .opHandleStopSending => handleStopSendingFrame s

/-- Run a list of operations; `none` once any of them panics. -/
def runOps (s : SendStreamState) : List SendStreamOp →
    Option SendStreamState
  | [] => some s
  | op :: rest =>
    match applyOp s op with
    | .ok s' _ => runOps s' rest
    | .crash => none

/-- The upward events of a run, in order, cut off at a panic. -/
def runEvents (s : SendStreamState) : List SendStreamOp → List SendEvent
  | [] => []
  | op :: rest =>
    match applyOp s op with
    | .ok s' evs => evs ++ runEvents s' rest
    | .crash => []

/-- How many `onStreamCompleted` notifications a list of events holds. -/
def completedCount (evs : List SendEvent) : Nat :=
  evs.countP (· = .onStreamCompleted)

/-- The state built by `newSendStream` (stream id 0): empty queues, no
outstanding frames, all flags cleared. -/
def initState : SendStreamState :=
  { numOutstandingFrames := 0
    retransmissionQueue := []
    prAckNotifyRetransmissionQueue := []
    streamID := 0
    writeOffset := 0
    closedForShutdown := false
    closeForShutdownErr := false
    finishedWriting := false
    canceledWrite := false
    finSent := false
    completed := false
    dataForWriting := []
    nextFrame := none }

/-! ## Varint round trip (helper) -/

theorem varint_read_append (i : Nat) (h : i ≤ maxVarInt8)
    (rest : List Nat) : varintRead (varintAppend i ++ rest) = some (i, rest) := by
  by_cases h1 : i ≤ maxVarInt1
  · have ha : varintAppend i = [i] := by simp [varintAppend, h1]
    rw [ha]
    have hb : i < 0x40 := by simp [maxVarInt1] at h1; omega
    simp [varintRead, hb]
  · by_cases h2 : i ≤ maxVarInt2
    · have ha : varintAppend i = [0x40 + i / 2^8, i % 2^8] := by
        simp [varintAppend, h1, h2]
      rw [ha]
      simp only [maxVarInt1, maxVarInt2] at h1 h2
      have hb : ¬(0x40 + i / 2^8 < 0x40) := by omega
      have hc : 0x40 + i / 2^8 < 0x80 := by omega
      simp only [varintRead, List.cons_append, if_neg hb, if_pos hc]
      have he : (0x40 + i / 2^8 - 0x40) * 2^8 + i % 2^8 = i := by omega
      rw [he, List.nil_append]
    · by_cases h3 : i ≤ maxVarInt4
      · have ha : varintAppend i =
            [0x80 + i / 2^24, i / 2^16 % 2^8, i / 2^8 % 2^8, i % 2^8] := by
          simp [varintAppend, h1, h2, h3]
        rw [ha]
        simp only [maxVarInt1, maxVarInt2, maxVarInt4] at h1 h2 h3
        have hb : ¬(0x80 + i / 2^24 < 0x40) := by omega
        have hc : ¬(0x80 + i / 2^24 < 0x80) := by omega
        have hd : 0x80 + i / 2^24 < 0xc0 := by omega
        simp only [varintRead, List.cons_append, if_neg hb, if_neg hc,
          if_pos hd]
        have he : (0x80 + i / 2^24 - 0x80) * 2^24 + i / 2^16 % 2^8 * 2^16 +
            i / 2^8 % 2^8 * 2^8 + i % 2^8 = i := by omega
        rw [he, List.nil_append]
      · have ha : varintAppend i =
            [0xc0 + i / 2^56, i / 2^48 % 2^8, i / 2^40 % 2^8, i / 2^32 % 2^8,
             i / 2^24 % 2^8, i / 2^16 % 2^8, i / 2^8 % 2^8, i % 2^8] := by
          simp [varintAppend, h1, h2, h3, h]
        rw [ha]
        simp only [maxVarInt1, maxVarInt2, maxVarInt4, maxVarInt8] at h1 h2 h3 h
        have hb : ¬(0xc0 + i / 2^56 < 0x40) := by omega
        have hc : ¬(0xc0 + i / 2^56 < 0x80) := by omega
        have hd : ¬(0xc0 + i / 2^56 < 0xc0) := by omega
        simp only [varintRead, List.cons_append, if_neg hb, if_neg hc,
          if_neg hd]
        have he : (0xc0 + i / 2^56 - 0xc0) * 2^56 + i / 2^48 % 2^8 * 2^48 +
            i / 2^40 % 2^8 * 2^40 + i / 2^32 % 2^8 * 2^32 +
            i / 2^24 % 2^8 * 2^24 + i / 2^16 % 2^8 * 2^16 +
            i / 2^8 % 2^8 * 2^8 + i % 2^8 = i := by omega
        rw [he, List.nil_append]


/-! ## Claim C1: the PR policy evaluator at loss time -/

/-- A lost PR_STREAM frame under the Probability policy: `PTDA = 0x80`
with probability parameter `ptda_c = 10000` (always-skip per the spec). -/
def C1frame : PRStreamFrame :=
  { StreamID := 4, Offset := 2, Data := [1, 2, 3], Fin := false,
    DataLenPresent := true, PTDA := 0x80, P := true, T := false, D := false,
    A := false, PtdaC := 10000 }

/-- A non-canceled stream with the lost frame outstanding. -/
def C1state : SendStreamState := { initState with numOutstandingFrames := 1 }

/-- C1: FALSIFIED BY THE CODE (code bug).  `prQueueRetransmission`'s
`switch` discriminates on `frame.PtdaC` — the policy parameter — instead
of the `PTDA` policy byte, so a lost PR_STREAM frame with `PTDA = 0x80`
and `ptda_c = 10000` matches no case: no random draw happens and for
every draw value `r` the frame is retransmitted as a plain STREAM frame,
whereas the claim requires `ptda_c = 10000 > r` to append a
PR_ACK_NOTIFY to `pr_notify_queue`. -/
theorem C1_policy_switch_on_ptdaC :
    ∀ r : Nat,
      prQueueRetransmission C1state C1frame r =
        .ok
          { C1state with
            retransmissionQueue :=
              [{ StreamID := 4, Offset := 2, Data := [1, 2, 3], Fin := false,
                 DataLenPresent := true }]
            numOutstandingFrames := 0 }
          [.onHasStreamData] :=
  fun _ => rfl

/-! ## Claim C2: encode/decode round trip -/

/-- A PR_STREAM frame whose `ptda_c = 10000` needs a two-byte varint. -/
def C2frame : PRStreamFrame :=
  { StreamID := 1, Offset := 0, Data := [0x61], Fin := false,
    DataLenPresent := true, PTDA := 0x80, P := true, T := false, D := false,
    A := false, PtdaC := 10000 }

/-- C2: FALSIFIED BY THE CODE (code bug).  The PR_STREAM encoder writes
`ptda_c` as the single truncated byte `byte(10000) = 0x10` instead of the
two-byte varint `[0x67, 0x10]` that its own `Length` accounts for and
that the parser reads back; and decoding the encoded bytes reaches the
parser's nil-frame dereference, so `decode(encode(f))` cannot return the
frame at all. -/
theorem C2_roundtrip_fails :
    PRStreamFrame.append C2frame =
      some [0x0a, 0x01, 0x01, 0x80, 0x10, 0x61] ∧
    parsePRStreamFrame [0x0a, 0x01, 0x01, 0x80, 0x10, 0x61] = .nilCrash ∧
    varintAppend C2frame.PtdaC = [0x67, 0x10] ∧
    decide (varintAppend C2frame.PtdaC = [0x10]) = false := by decide

/-! ## Claim C3: totality of the PR_STREAM decoder -/

/-- C3: FALSIFIED BY THE CODE (code bug).  No input whatsoever makes
`parsePRStreamFrame` return a frame: every byte sequence either fails in
the header (a decode error) or reaches the assignment
`frame.PTDA, err = r.ReadByte()` on the still-nil frame pointer — the
nil-dereference the spec explicitly forbids replicating.  In particular
the two-byte input `0x48 0x00` (a well-formed empty PR_STREAM frame
header) crashes. -/
theorem C3_decoder_never_returns_a_frame :
    (∀ bs : List Nat, parsePRStreamFrame bs = .error ∨
      parsePRStreamFrame bs = .nilCrash) ∧
    parsePRStreamFrame [0x48, 0x00] = .nilCrash := by
  refine ⟨fun bs => ?_, by decide⟩
  unfold parsePRStreamFrame
  split
  · exact .inl rfl
  · split
    · exact .inl rfl
    · split
      · exact .inl rfl
      · split
        · exact .inl rfl
        · exact .inr rfl

/-! ## Claim C4: `MaxDataLen` and the PR overhead -/

/-- A PR_STREAM frame shape: one-byte stream id, no offset, length
present, `ptda_c = 0` (one-byte varint). -/
def C4shape : PRStreamFrame :=
  { StreamID := 1, Offset := 0, Data := [], Fin := false,
    DataLenPresent := true, PTDA := 0x80, P := true, T := false, D := false,
    A := false, PtdaC := 0 }

/-- C4: FALSIFIED BY THE CODE (code bug).  For budget 8 the source's
`MaxDataLen` answers 7, but a frame of this shape carrying 7 data bytes
encodes to 12 bytes (3 header + 2 PR fields + 7 data) — the PR overhead
`1 + varint_len(ptda_c)` was subtracted from the header length, i.e.
ADDED to the space computed for data, instead of being subtracted from
it.  The header-alone-exceeds-budget clause itself holds (budget 2
gives 0). -/
theorem C4_maxDataLen_overflows_budget :
    PRStreamFrame.maxDataLen C4shape 8 = 7 ∧
    PRStreamFrame.length { C4shape with Data := List.replicate 7 0x61 } = 12 ∧
    ((8 : Int) < 12) ∧
    PRStreamFrame.maxDataLen C4shape 2 = 0 := by decide

/-! ## Claim C7: the split identity -/

/-- A PR_STREAM frame with 5 data bytes: full header 5 bytes, encoded
length 10 bytes. -/
def C7frame : PRStreamFrame :=
  { StreamID := 1, Offset := 0, Data := [1, 2, 3, 4, 5], Fin := true,
    DataLenPresent := true, PTDA := 0x80, P := true, T := false, D := false,
    A := false, PtdaC := 0 }

/-- C7: FALSIFIED BY THE CODE (code bug).  With `header(f) = 5 < 8 <
10 = encoded_length(f)` the split must produce a clean head/tail pair,
but the buggy `MaxDataLen` (see C4) computes a head size of 7 > 5 data
bytes, so `MaybeSplitOffFrame` executes `f.Data[:5-7]` — a negative
slice bound, a runtime panic — instead of splitting. -/
theorem C7_split_panics_in_budget_range :
    PRStreamFrame.length C7frame = 10 ∧
    ((5 : Int) < 8) ∧ ((8 : Int) < 10) ∧
    PRStreamFrame.maxDataLen C7frame 8 = 7 ∧
    PRStreamFrame.maybeSplitOffFrame C7frame 8 = .sliceCrash := by decide

/-! ## Claim C5: `Write` sticky-error precedence -/

/-- A stream on which all four sticky conditions hold at once. -/
def C5state : SendStreamState :=
  { initState with
    finishedWriting := true
    canceledWrite := true
    closedForShutdown := true
    closeForShutdownErr := true }

/-- C5 counterexample: a stream that is both closed-for-shutdown and
closed by the producer makes `Write` fail with the write-on-closed-stream
error, not the shutdown error the claim's precedence order requires. -/
theorem C5_counterexample :
    writeEntryError C5state true = some .errWriteOnClosedStream ∧
    decide (writeEntryError C5state true = some .errShutdown) = false := by
  decide

/-- C5 amended: at `Write` entry the sticky errors are evaluated in the
precedence order WriteAfterClose, then WriteCanceled, then
ClosedForShutdown, then DeadlineExceeded. -/
theorem C5_amended_precedence :
    ∀ (s : SendStreamState) (d : Bool),
      (s.finishedWriting = true →
        writeEntryError s d = some .errWriteOnClosedStream) ∧
      (s.finishedWriting = false → s.canceledWrite = true →
        writeEntryError s d = some .errWriteCanceled) ∧
      (s.finishedWriting = false → s.canceledWrite = false →
        s.closeForShutdownErr = true →
        writeEntryError s d = some .errShutdown) ∧
      (s.finishedWriting = false → s.canceledWrite = false →
        s.closeForShutdownErr = false → d = true →
        writeEntryError s d = some .errDeadline) := by
  intro s d
  refine ⟨fun h1 => ?_, fun h1 h2 => ?_, fun h1 h2 h3 => ?_,
    fun h1 h2 h3 h4 => ?_⟩ <;> simp [writeEntryError, h1, *]

theorem C5_amended_precedence_witness :
    writeEntryError C5state true = some .errWriteOnClosedStream :=
  (C5_amended_precedence C5state true).1 rfl

/-! ## Claim C8: retransmission-first in `popStreamFrame` -/

/-- A small retransmission-queue entry: 1 data byte, fits any sane
budget. -/
def C8g : StreamFrame :=
  { StreamID := 6, Offset := 0, Data := [9], Fin := false,
    DataLenPresent := true }

/-- A non-canceled, non-shutdown stream whose retransmission queue holds
exactly one frame. -/
def C8state : SendStreamState :=
  { initState with retransmissionQueue := [C8g] }

/-- C8 counterexample: popping the only queued retransmission frame
(budget 100, fits whole) returns `has_more = true` even though the
retransmission queue is empty afterwards and no other data exists — the
claim's `has_more = remaining_non_empty` is violated (the source always
claims more data after serving a retransmission). -/
theorem C8_counterexample :
    popNewOrRetransmittedStreamFrame C8state 100 50 false 0 =
      .ok (some C8g) true { C8state with retransmissionQueue := [] } [] ∧
    decide (popNewOrRetransmittedStreamFrame C8state 100 50 false 0 =
      .ok (some C8g) false { C8state with retransmissionQueue := [] } [])
      = false := by decide

/-- C8 amended: on a non-canceled, non-shutdown stream with a non-empty
retransmission queue, `popNewOrRetransmittedStreamFrame` serves the
queue before any new data: a split head is returned with the tail left
at the front of the queue, otherwise the head is popped — and in every
case `has_more` is reported as `true` (possibly spuriously), not as the
emptiness of the remaining queue. -/
theorem C8_amended_retransmission_first :
    ∀ (s : SendStreamState) (maxBytes sendWindow : Int) (nb : Bool)
      (bo : Int) (f : StreamFrame) (rest : List StreamFrame),
      s.canceledWrite = false → s.closeForShutdownErr = false →
      s.retransmissionQueue = f :: rest →
      popNewOrRetransmittedStreamFrame s maxBytes sendWindow nb bo =
        match f.maybeSplitOffFrame maxBytes with
        | .splitFrames head tail =>
          .ok (some head) true { s with retransmissionQueue := tail :: rest }
            []
        | .needsSplitNoFrame => .ok none true s []
        | .noSplit =>
          .ok (some f) true { s with retransmissionQueue := rest } [] := by
  intro s maxBytes sendWindow nb bo f rest h1 h2 h3
  unfold popNewOrRetransmittedStreamFrame maybeGetRetransmission
  rcases h4 : f.maybeSplitOffFrame maxBytes with _ | _ | ⟨head, tail⟩ <;>
    simp [h1, h2, h3, h4]

theorem C8_amended_retransmission_first_witness :
    popNewOrRetransmittedStreamFrame C8state 100 50 false 0 =
      match C8g.maybeSplitOffFrame 100 with
      | .splitFrames head tail =>
        .ok (some head) true
          { C8state with retransmissionQueue := tail :: ([] : List StreamFrame) } []
      | .needsSplitNoFrame => .ok none true C8state []
      | .noSplit =>
        .ok (some C8g) true { C8state with retransmissionQueue := [] } [] :=
  C8_amended_retransmission_first C8state 100 50 false 0 C8g [] rfl rfl rfl

/-! ## Claim C9: PR_ACK_NOTIFY wire layout -/

/-- A PR_ACK_NOTIFY frame with no flag bits set (no FIN, no data-length
bit, zero offset). -/
def C9frame : PRAckNotifyFrame :=
  { StreamID := 2, Offset := 0, PRDataLen := 5, Fin := false,
    DataLenPresent := false, PTDA := 0x80, P := true, T := false,
    D := false, A := false, PtdaC := 7 }

/-- C9 counterexample: the encoder emits type byte `0x58`, not the
`0x50` the claim states (the flag-free frame encodes to
`0x58 02 80 07 05`). -/
theorem C9_counterexample :
    PRAckNotifyFrame.append C9frame = [0x58, 0x02, 0x80, 0x07, 0x05] ∧
    decide ((PRAckNotifyFrame.append C9frame).head? = some 0x50) = false := by
  decide

/-- C9 amended: every encoded PR_ACK_NOTIFY frame begins with type byte
`0x58` XORed with the FIN (0x1), LEN (0x2) and OFF (0x4) flag bits, and
carries its header fields in the order stream_id, PTDA (one byte),
ptda_c (varint), optional offset, and finally pr_data_len as a varint —
witnessed by reading the fields back in that order. -/
theorem C9_amended_layout :
    ∀ f : PRAckNotifyFrame,
      f.StreamID ≤ maxVarInt8 → f.PtdaC ≤ maxVarInt8 →
      f.PRDataLen ≤ maxVarInt8 → intToUInt64 f.Offset ≤ maxVarInt8 →
      ∃ r1 r2 r3 : List Nat,
        f.append =
          ((0x58 ^^^ (if f.Fin then 1 else 0) ^^^
            (if f.DataLenPresent then 2 else 0) ^^^
            (if f.Offset ≠ 0 then 4 else 0)) : Nat) :: r1 ∧
        varintRead r1 = some (f.StreamID, f.PTDA :: r2) ∧
        varintRead r2 = some (f.PtdaC, r3) ∧
        (if f.Offset ≠ 0 then
          varintRead r3 = some (intToUInt64 f.Offset, varintAppend f.PRDataLen)
         else r3 = varintAppend f.PRDataLen) ∧
        varintRead (varintAppend f.PRDataLen) = some (f.PRDataLen, []) := by
  intro f h1 h2 h3 h4
  refine ⟨varintAppend f.StreamID ++ f.PTDA ::
      (varintAppend f.PtdaC ++
        ((if f.Offset ≠ 0 then varintAppend (intToUInt64 f.Offset) else []) ++
          varintAppend f.PRDataLen)),
    varintAppend f.PtdaC ++
      ((if f.Offset ≠ 0 then varintAppend (intToUInt64 f.Offset) else []) ++
        varintAppend f.PRDataLen),
    (if f.Offset ≠ 0 then varintAppend (intToUInt64 f.Offset) else []) ++
      varintAppend f.PRDataLen, ?_, ?_, ?_, ?_, ?_⟩
  · unfold PRAckNotifyFrame.append
    by_cases ho : f.Offset ≠ 0 <;> rcases hf : f.Fin <;>
      rcases hd : f.DataLenPresent <;> simp [hf, hd, ho]
  · rw [varint_read_append f.StreamID h1]
  · rw [varint_read_append f.PtdaC h2]
  · by_cases ho : f.Offset ≠ 0
    · simp only [if_pos ho]
      rw [varint_read_append (intToUInt64 f.Offset) h4]
    · simp only [if_neg ho, List.nil_append]
  · have := varint_read_append f.PRDataLen h3 []
    rwa [List.append_nil] at this

theorem C9_amended_layout_witness :
    ∃ r1 r2 r3 : List Nat,
      PRAckNotifyFrame.append C9frame =
        ((0x58 ^^^ (if C9frame.Fin then 1 else 0) ^^^
          (if C9frame.DataLenPresent then 2 else 0) ^^^
          (if C9frame.Offset ≠ 0 then 4 else 0)) : Nat) :: r1 ∧
      varintRead r1 = some (C9frame.StreamID, C9frame.PTDA :: r2) ∧
      varintRead r2 = some (C9frame.PtdaC, r3) ∧
      (if C9frame.Offset ≠ 0 then
        varintRead r3 =
          some (intToUInt64 C9frame.Offset, varintAppend C9frame.PRDataLen)
       else r3 = varintAppend C9frame.PRDataLen) ∧
      varintRead (varintAppend C9frame.PRDataLen) =
        some (C9frame.PRDataLen, []) :=
  C9_amended_layout C9frame (by decide) (by decide) (by decide) (by decide)

/-! ## Helper lemmas for the completion invariant (claims C6, C10) -/

def StepCompletedOK (s s' : SendStreamState) (evs : List SendEvent) : Prop :=
  (s.completed = true → s'.completed = true) ∧
  completedCount evs =
    (if s.completed = false ∧ s'.completed = true then 1 else 0) ∧
  (s.completed = false → s'.completed = true →
    (s'.finSent = true ∨ s'.canceledWrite = true) ∧
    s'.numOutstandingFrames = 0 ∧ s'.retransmissionQueue = [])

theorem stepCompletedOK_of_unchanged (s s' : SendStreamState)
    (evs : List SendEvent) (hc : s'.completed = s.completed)
    (he : completedCount evs = 0) : StepCompletedOK s s' evs := by
  refine ⟨fun h => by rw [hc, h], by rw [he]; simp [hc], fun h1 h2 => ?_⟩
  rw [hc, h1] at h2
  exact absurd h2 (by simp)

theorem isNewlyCompleted_cases (s : SendStreamState) :
    (isNewlyCompleted s = ({ s with completed := true }, true) ∧
      s.completed = false ∧
      (s.finSent = true ∨ s.canceledWrite = true) ∧
      s.numOutstandingFrames = 0 ∧ s.retransmissionQueue = []) ∨
    isNewlyCompleted s = (s, false) := by
  unfold isNewlyCompleted
  dsimp only
  split
  next h =>
    left
    simp only [Bool.and_eq_true, Bool.or_eq_true, Bool.not_eq_true',
      beq_iff_eq, List.isEmpty_iff] at h
    exact ⟨rfl, h.2, h.1.1.1, h.1.1.2, h.1.2⟩
  next h => right; rfl

theorem frameAcked_stepCompleted (s s' : SendStreamState)
    (evs : List SendEvent) (h : frameAcked s = .ok s' evs) :
    StepCompletedOK s s' evs := by
  simp only [frameAcked] at h
  split at h
  · obtain ⟨rfl, rfl⟩ := StepOut.ok.inj h
    exact stepCompletedOK_of_unchanged _ _ _ rfl rfl
  · split at h
    · exact absurd h (by simp)
    · rcases isNewlyCompleted_cases
        { s with numOutstandingFrames := s.numOutstandingFrames - 1 } with
        ⟨heq, hcomp, hpred, hout, hq⟩ | heq
      · rw [heq] at h
        simp only [StepOut.ok.injEq, if_pos rfl, if_true] at h
        obtain ⟨rfl, rfl⟩ := h
        have hcomp2 : s.completed = false := hcomp
        refine ⟨fun _ => rfl, ?_, fun _ _ => ⟨hpred, hout, hq⟩⟩
        simp [completedCount, hcomp2]
      · rw [heq] at h
        simp only [StepOut.ok.injEq, if_neg, if_false, Bool.false_eq_true] at h
        obtain ⟨rfl, rfl⟩ := h
        exact stepCompletedOK_of_unchanged _ _ _ rfl rfl

theorem prStreamframeAcked_stepCompleted (s s' : SendStreamState)
    (evs : List SendEvent) (h : prStreamframeAcked s = .ok s' evs) :
    StepCompletedOK s s' evs := by
  simp only [prStreamframeAcked] at h
  split at h
  · obtain ⟨rfl, rfl⟩ := StepOut.ok.inj h
    exact stepCompletedOK_of_unchanged _ _ _ rfl rfl
  · split at h
    · exact absurd h (by simp)
    · rcases isNewlyCompleted_cases
        { s with numOutstandingFrames := s.numOutstandingFrames - 1 } with
        ⟨heq, hcomp, hpred, hout, hq⟩ | heq
      · rw [heq] at h
        simp only [StepOut.ok.injEq, if_pos rfl, if_true] at h
        obtain ⟨rfl, rfl⟩ := h
        have hcomp2 : s.completed = false := hcomp
        refine ⟨fun _ => rfl, ?_, fun _ _ => ⟨hpred, hout, hq⟩⟩
        simp [completedCount, hcomp2]
      · rw [heq] at h
        simp only [StepOut.ok.injEq, if_neg, if_false, Bool.false_eq_true] at h
        obtain ⟨rfl, rfl⟩ := h
        exact stepCompletedOK_of_unchanged _ _ _ rfl rfl

theorem queueRetransmission_stepCompleted (s : SendStreamState)
    (f : StreamFrame) (s' : SendStreamState) (evs : List SendEvent)
    (h : queueRetransmission s f = .ok s' evs) : StepCompletedOK s s' evs := by
  simp only [queueRetransmission] at h
  split at h
  · obtain ⟨rfl, rfl⟩ := StepOut.ok.inj h
    exact stepCompletedOK_of_unchanged _ _ _ rfl rfl
  · split at h
    · exact absurd h (by simp)
    · obtain ⟨rfl, rfl⟩ := StepOut.ok.inj h
      exact stepCompletedOK_of_unchanged _ _ _ rfl (by simp [completedCount])

theorem prAckNotifyQueueRetransmission_stepCompleted (s : SendStreamState)
    (f : PRAckNotifyFrame) (s' : SendStreamState) (evs : List SendEvent)
    (h : prAckNotifyQueueRetransmission s f = .ok s' evs) :
    StepCompletedOK s s' evs := by
  simp only [prAckNotifyQueueRetransmission] at h
  split at h
  · obtain ⟨rfl, rfl⟩ := StepOut.ok.inj h
    exact stepCompletedOK_of_unchanged _ _ _ rfl rfl
  · split at h
    · exact absurd h (by simp)
    · obtain ⟨rfl, rfl⟩ := StepOut.ok.inj h
      exact stepCompletedOK_of_unchanged _ _ _ rfl (by simp [completedCount])

theorem prQueueRetransmission_stepCompleted (s : SendStreamState)
    (f : PRStreamFrame) (r : Nat) (s' : SendStreamState)
    (evs : List SendEvent) (h : prQueueRetransmission s f r = .ok s' evs) :
    StepCompletedOK s s' evs := by
  simp only [prQueueRetransmission] at h
  split at h
  · split at h
    · exact queueRetransmission_stepCompleted _ _ _ _ h
    · exact prAckNotifyQueueRetransmission_stepCompleted _ _ _ _ h
  · rw [if_pos rfl] at h
    exact queueRetransmission_stepCompleted _ _ _ _ h

theorem closeStream_stepCompleted (s s' : SendStreamState)
    (evs : List SendEvent) (h : closeStream s = .ok s' evs) :
    StepCompletedOK s s' evs := by
  simp only [closeStream] at h
  split at h
  · obtain ⟨rfl, rfl⟩ := StepOut.ok.inj h
    exact stepCompletedOK_of_unchanged _ _ _ rfl rfl
  · split at h
    · obtain ⟨rfl, rfl⟩ := StepOut.ok.inj h
      exact stepCompletedOK_of_unchanged _ _ _ rfl rfl
    · obtain ⟨rfl, rfl⟩ := StepOut.ok.inj h
      exact stepCompletedOK_of_unchanged _ _ _ rfl (by simp [completedCount])

theorem closeForShutdownFn_stepCompleted (s s' : SendStreamState)
    (evs : List SendEvent) (h : closeForShutdownFn s = .ok s' evs) :
    StepCompletedOK s s' evs := by
  simp only [closeForShutdownFn] at h
  obtain ⟨rfl, rfl⟩ := StepOut.ok.inj h
  exact stepCompletedOK_of_unchanged _ _ _ rfl rfl

theorem cancelWriteImpl_stepCompleted (s s' : SendStreamState)
    (evs : List SendEvent) (h : cancelWriteImpl s = .ok s' evs) :
    StepCompletedOK s s' evs := by
  simp only [cancelWriteImpl] at h
  split at h
  · obtain ⟨rfl, rfl⟩ := StepOut.ok.inj h
    exact stepCompletedOK_of_unchanged _ _ _ rfl rfl
  · rcases isNewlyCompleted_cases
      { s with
        canceledWrite := true
        numOutstandingFrames := 0
        retransmissionQueue := [] } with
      ⟨heq, hcomp, hpred, hout, hq⟩ | heq
    · rw [heq] at h
      simp only [StepOut.ok.injEq, if_pos rfl, if_true] at h
      obtain ⟨rfl, rfl⟩ := h
      have hcomp2 : s.completed = false := hcomp
      refine ⟨fun _ => rfl, ?_, fun _ _ => ⟨hpred, hout, hq⟩⟩
      simp [completedCount, hcomp2]
    · rw [heq] at h
      simp only [StepOut.ok.injEq, if_neg, if_false, Bool.false_eq_true] at h
      obtain ⟨rfl, rfl⟩ := h
      exact stepCompletedOK_of_unchanged _ _ _ rfl (by simp [completedCount])

theorem getDataForWriting_completed (s : SendStreamState) (f : StreamFrame)
    (mb : Int) : ((getDataForWriting s f mb).2).completed = s.completed := by
  unfold getDataForWriting
  split <;> rfl

theorem popNewStreamFrameWithoutBuffer_completed (s : SendStreamState)
    (f : StreamFrame) (mb sw : Int) :
    ((popNewStreamFrameWithoutBuffer s f mb sw).2.1).completed =
      s.completed := by
  unfold popNewStreamFrameWithoutBuffer
  dsimp only
  split
  · rfl
  · rcases hg : getDataForWriting s f (f.maxDataLen mb ⊓ sw) with ⟨f1, s1⟩
    have := getDataForWriting_completed s f (f.maxDataLen mb ⊓ sw)
    rw [hg] at this
    exact this

theorem popNewStreamFrame_completed (s : SendStreamState) (mb sw : Int) :
    ((popNewStreamFrame s mb sw).2.2).completed = s.completed := by
  unfold popNewStreamFrame
  rcases hn : s.nextFrame with _ | nf
  · simp only [hn]
    split <;> exact popNewStreamFrameWithoutBuffer_completed s _ mb sw
  · simp only [hn]
    split <;> rfl

theorem maybeGetRetransmission_completed (s : SendStreamState) (mb : Int) :
    ((maybeGetRetransmission s mb).2.2).completed = s.completed := by
  unfold maybeGetRetransmission
  rcases hq : s.retransmissionQueue with _ | ⟨f, rest⟩
  · rfl
  · simp only
    split <;> rfl

theorem popStreamFrameNewData_stepCompleted (s : SendStreamState)
    (mb sw : Int) (nb : Bool) (bo : Int) (fo : Option StreamFrame)
    (hm : Bool) (s1 : SendStreamState) (evs : List SendEvent)
    (h : popStreamFrameNewData s mb sw nb bo = .ok fo hm s1 evs) :
    s1.completed = s.completed ∧ completedCount evs = 0 := by
  unfold popStreamFrameNewData at h
  split at h
  · split at h
    · obtain ⟨rfl, rfl, rfl, rfl⟩ := PopInnerRes.ok.inj h
      exact ⟨rfl, rfl⟩
    · obtain ⟨rfl, rfl, rfl, rfl⟩ := PopInnerRes.ok.inj h
      exact ⟨rfl, rfl⟩
  · split at h
    · split at h
      · obtain ⟨rfl, rfl, rfl, rfl⟩ := PopInnerRes.ok.inj h
        exact ⟨rfl, by simp [completedCount]⟩
      · obtain ⟨rfl, rfl, rfl, rfl⟩ := PopInnerRes.ok.inj h
        exact ⟨rfl, rfl⟩
    · rcases hp : popNewStreamFrame s mb sw with ⟨fOpt, hm2, s2⟩
      rw [hp] at h
      have hc2 : s2.completed = s.completed := by
        have := popNewStreamFrame_completed s mb sw
        rw [hp] at this
        exact this
      rcases fOpt with _ | f
      · exact absurd h (by simp)
      · simp only at h
        obtain ⟨rfl, rfl, rfl, rfl⟩ := PopInnerRes.ok.inj h
        constructor
        · split <;> split <;> simp [hc2]
        · rfl

theorem popInner_stepCompleted (s : SendStreamState) (mb sw : Int)
    (nb : Bool) (bo : Int) (fo : Option StreamFrame) (hm : Bool)
    (s1 : SendStreamState) (evs : List SendEvent)
    (h : popNewOrRetransmittedStreamFrame s mb sw nb bo = .ok fo hm s1 evs) :
    s1.completed = s.completed ∧ completedCount evs = 0 := by
  unfold popNewOrRetransmittedStreamFrame at h
  split at h
  · obtain ⟨rfl, rfl, rfl, rfl⟩ := PopInnerRes.ok.inj h
    exact ⟨rfl, rfl⟩
  · split at h
    · rcases hm1 : maybeGetRetransmission s mb with ⟨f2, hmr, s2⟩
      rw [hm1] at h
      have hc2 : s2.completed = s.completed := by
        have := maybeGetRetransmission_completed s mb
        rw [hm1] at this
        exact this
      dsimp only at h
      split at h
      · rcases f2 with _ | g
        · simp only at h
          obtain ⟨rfl, rfl, rfl, rfl⟩ := PopInnerRes.ok.inj h
          exact ⟨hc2, rfl⟩
        · simp only at h
          obtain ⟨rfl, rfl, rfl, rfl⟩ := PopInnerRes.ok.inj h
          exact ⟨hc2, rfl⟩
      · have := popStreamFrameNewData_stepCompleted s2 mb sw nb bo fo hm s1
          evs h
        exact ⟨this.1.trans hc2, this.2⟩
    · exact popStreamFrameNewData_stepCompleted s mb sw nb bo fo hm s1 evs h

theorem applyOpPop_stepCompleted (s : SendStreamState) (mb sw : Int)
    (nb : Bool) (bo : Int) (s' : SendStreamState) (evs : List SendEvent)
    (h : applyOp s (.opPopStreamFrame mb sw nb bo) = .ok s' evs) :
    StepCompletedOK s s' evs := by
  simp only [applyOp] at h
  unfold popStreamFrame at h
  simp only [PR_ENABLED, eq_self_iff_true, if_true] at h
  split at h
  next fP hmP s1 evs1 heq =>
    obtain ⟨rfl, rfl⟩ := StepOut.ok.inj h
    split at heq
    next => exact absurd heq (by simp)
    next => exact absurd heq (by simp)
    next f2 hm2 s2 evs2 heq2 =>
      obtain ⟨-, -, rfl, rfl⟩ := PopOuterRes.okPR.inj heq
      have hin := popInner_stepCompleted _ _ _ _ _ _ _ _ _ heq2
      exact stepCompletedOK_of_unchanged _ _ _ hin.1 hin.2
  next fP hmP s1 evs1 heq =>
    obtain ⟨rfl, rfl⟩ := StepOut.ok.inj h
    split at heq
    next => exact absurd heq (by simp)
    next => exact absurd heq (by simp)
    next => exact absurd heq (by simp)
  next hmN s1 evs1 heq =>
    obtain ⟨rfl, rfl⟩ := StepOut.ok.inj h
    split at heq
    next => exact absurd heq (by simp)
    next hm2 s2 evs2 heq2 =>
      obtain ⟨-, rfl, rfl⟩ := PopOuterRes.okNone.inj heq
      have hin := popInner_stepCompleted _ _ _ _ _ _ _ _ _ heq2
      exact stepCompletedOK_of_unchanged _ _ _ hin.1 hin.2
    next => exact absurd heq (by simp)
  next heq => exact absurd h (by simp)

theorem applyOp_stepCompleted (s : SendStreamState) (op : SendStreamOp)
    (s' : SendStreamState) (evs : List SendEvent)
    (h : applyOp s op = .ok s' evs) : StepCompletedOK s s' evs := by
  cases op with
  | opFrameAcked => exact frameAcked_stepCompleted _ _ _ h
  | opPRStreamFrameAcked => exact prStreamframeAcked_stepCompleted _ _ _ h
  | opQueueRetransmission f => exact queueRetransmission_stepCompleted _ _ _ _ h
  | opPRQueueRetransmission f r =>
    exact prQueueRetransmission_stepCompleted _ _ _ _ _ h
  | opPRAckNotifyQueueRetransmission f =>
    exact prAckNotifyQueueRetransmission_stepCompleted _ _ _ _ h
  | opPopStreamFrame mb sw nb bo => exact applyOpPop_stepCompleted _ _ _ _ _ _ _ h
  | opClose => exact closeStream_stepCompleted _ _ _ h
  | opCancelWrite => exact cancelWriteImpl_stepCompleted _ _ _ h
  | opCloseForShutdown => exact closeForShutdownFn_stepCompleted _ _ _ h
  | opHandleStopSending => exact cancelWriteImpl_stepCompleted _ _ _ h

theorem runEvents_completed_zero (ops : List SendStreamOp) :
    ∀ s : SendStreamState, s.completed = true →
      completedCount (runEvents s ops) = 0 := by
  induction ops with
  | nil => intro s _; rfl
  | cons op rest ih =>
    intro s hs
    unfold runEvents
    rcases happ : applyOp s op with ⟨s1, evs1⟩ | _
    · have hstep := applyOp_stepCompleted s op s1 evs1 happ
      have h1 : s1.completed = true := hstep.1 hs
      have h2 : completedCount evs1 = 0 := by
        rw [hstep.2.1]
        simp [hs]
      simp only [completedCount, List.countP_append] at *
      rw [h2, ih s1 h1]
    · rfl

theorem runEvents_completed_le_one (ops : List SendStreamOp) :
    ∀ s : SendStreamState, completedCount (runEvents s ops) ≤ 1 := by
  induction ops with
  | nil => intro s; simp [runEvents, completedCount]
  | cons op rest ih =>
    intro s
    unfold runEvents
    rcases happ : applyOp s op with ⟨s1, evs1⟩ | _
    · have hstep := applyOp_stepCompleted s op s1 evs1 happ
      simp only [completedCount, List.countP_append]
      by_cases hc : s.completed = false ∧ s1.completed = true
      · have h1 : completedCount evs1 = 1 := by rw [hstep.2.1]; simp [hc]
        have h2 : completedCount (runEvents s1 rest) = 0 :=
          runEvents_completed_zero rest s1 hc.2
        simp only [completedCount] at h1 h2
        omega
      · have h1 : completedCount evs1 = 0 := by rw [hstep.2.1]; simp [hc]
        have h2 := ih s1
        simp only [completedCount] at h1 h2
        omega
    · simp [completedCount]

/-! ## Claim C6: completion latches once -/

/-- C6: CONFIRMED.  For every state and every operation (frame acked,
frame lost — plain or PR —, pop, close, cancel, shutdown, stop-sending):
`completed` is monotone; an `onStreamCompleted` notification is emitted
on a step exactly when `completed` transitions false→true, and at that
transition `(fin_sent ∨ canceled_write) ∧ outstanding_frames = 0 ∧
retransmission_queue = []` holds in the post-state; consequently every
run emits at most one `onStreamCompleted`, and none at all from an
already-completed state. -/
theorem C6_completion_once :
    (∀ (s : SendStreamState) (op : SendStreamOp) (s' : SendStreamState)
        (evs : List SendEvent), applyOp s op = .ok s' evs →
      (s.completed = true → s'.completed = true) ∧
      completedCount evs =
        (if s.completed = false ∧ s'.completed = true then 1 else 0) ∧
      (s.completed = false → s'.completed = true →
        (s'.finSent = true ∨ s'.canceledWrite = true) ∧
        s'.numOutstandingFrames = 0 ∧ s'.retransmissionQueue = [])) ∧
    (∀ (s : SendStreamState) (ops : List SendStreamOp),
      completedCount (runEvents s ops) ≤ 1) ∧
    (∀ (s : SendStreamState) (ops : List SendStreamOp),
      s.completed = true → completedCount (runEvents s ops) = 0) :=
  ⟨fun s op s' evs h => applyOp_stepCompleted s op s' evs h,
   fun s ops => runEvents_completed_le_one ops s,
   fun s ops hs => runEvents_completed_zero ops s hs⟩

/-- The state after canceling a fresh stream (the completion latch
fires). -/
def C6cancelState : SendStreamState :=
  { initState with
    canceledWrite := true
    completed := true }

theorem C6_completion_once_witness :
    (initState.completed = true → C6cancelState.completed = true) ∧
    completedCount [SendEvent.queueResetStream 0, SendEvent.onStreamCompleted]
      = (if initState.completed = false ∧ C6cancelState.completed = true
         then 1 else 0) ∧
    (initState.completed = false → C6cancelState.completed = true →
      (C6cancelState.finSent = true ∨ C6cancelState.canceledWrite = true) ∧
      C6cancelState.numOutstandingFrames = 0 ∧
      C6cancelState.retransmissionQueue = []) :=
  C6_completion_once.1 initState .opCancelWrite C6cancelState
    [SendEvent.queueResetStream 0, SendEvent.onStreamCompleted] rfl

/-! ## Claim C10: the PR notify queue never gates completion -/

/-- A stream with three bytes deposited by a writer. -/
def C10s0 : SendStreamState := { initState with dataForWriting := [7, 7, 7] }

/-- The popped PR_STREAM frame handed back by the loss detector, with
`ptda_c = 0x80` so that the source's switch-on-`PtdaC` takes the skip
path for draw 0. -/
def C10lost : PRStreamFrame :=
  { StreamID := 0, Offset := 0, Data := [7, 7, 7], Fin := false,
    DataLenPresent := true, PTDA := 0x80, P := true, T := false, D := false,
    A := false, PtdaC := 0x80 }

/-- Pop the deposited bytes, lose the PR frame (skip path), cancel. -/
def C10trace : List SendStreamOp :=
  [.opPopStreamFrame 100 100 false 0, .opPRQueueRetransmission C10lost 0,
   .opCancelWrite]

/-- C10: CONFIRMED.  (1) `isNewlyCompleted` is oblivious to
`pr_notify_queue`: changing that queue changes neither the latching
decision nor anything else; (2) the PR skip path
(`prAckNotifyQueueRetransmission`) decrements `outstanding_frames`
without ever changing `completed` or reporting completion; (3)
`cancelWrite` clears only the STREAM retransmission queue and leaves
`pr_notify_queue` intact; and (4) a concrete run (pop a PR frame, lose
it on the skip path, cancel) ends with `completed = true` while one
PR_ACK_NOTIFY frame still waits in `pr_notify_queue`, with exactly one
completion report. -/
theorem C10_pr_notify_queue_independent :
    (∀ (s : SendStreamState) (q : List PRAckNotifyFrame),
      isNewlyCompleted { s with prAckNotifyRetransmissionQueue := q } =
        ({ (isNewlyCompleted s).1 with prAckNotifyRetransmissionQueue := q },
         (isNewlyCompleted s).2)) ∧
    (∀ (s : SendStreamState) (f : PRAckNotifyFrame),
      match prAckNotifyQueueRetransmission s f with
      | .ok s' evs => s'.completed = s.completed ∧ completedCount evs = 0
      | .crash => True) ∧
    (∀ s : SendStreamState,
      match cancelWriteImpl s with
      | .ok s' _ =>
        s'.prAckNotifyRetransmissionQueue = s.prAckNotifyRetransmissionQueue ∧
        s'.retransmissionQueue =
          (if s.canceledWrite = true then s.retransmissionQueue else [])
      | .crash => True) ∧
    (runOps C10s0 C10trace).map
        (fun sf => (sf.completed, sf.prAckNotifyRetransmissionQueue.length)) =
      some (true, 1) ∧
    completedCount (runEvents C10s0 C10trace) = 1 := by
  refine ⟨?_, ?_, ?_, ?_, ?_⟩
  · intro s q
    unfold isNewlyCompleted
    dsimp only
    by_cases hcond : (((s.finSent || s.canceledWrite) &&
        s.numOutstandingFrames == 0 && s.retransmissionQueue.isEmpty) &&
        !s.completed) = true
    · rw [if_pos hcond, if_pos hcond]
    · rw [if_neg hcond, if_neg hcond]
  · intro s f
    unfold prAckNotifyQueueRetransmission
    dsimp only
    split
    next s1 evs1 heq =>
      split at heq
      · obtain ⟨rfl, rfl⟩ := StepOut.ok.inj heq
        exact ⟨rfl, rfl⟩
      · split at heq
        · exact absurd heq (by simp)
        · obtain ⟨rfl, rfl⟩ := StepOut.ok.inj heq
          exact ⟨rfl, by simp [completedCount]⟩
    next heq => trivial
  · intro s
    unfold cancelWriteImpl
    dsimp only
    split
    next s1 evs1 heq =>
      split at heq
      next hc =>
        obtain ⟨rfl, rfl⟩ := StepOut.ok.inj heq
        exact ⟨rfl, by rw [if_pos hc]⟩
      next hc =>
        rcases isNewlyCompleted_cases
          { s with
            canceledWrite := true
            numOutstandingFrames := 0
            retransmissionQueue := [] } with ⟨heq2, _, _, _, _⟩ | heq2
        · rw [heq2] at heq
          simp only [StepOut.ok.injEq, if_pos rfl, if_true] at heq
          obtain ⟨rfl, rfl⟩ := heq
          exact ⟨rfl, by rw [if_neg hc]⟩
        · rw [heq2] at heq
          simp only [StepOut.ok.injEq, if_neg, if_false,
            Bool.false_eq_true] at heq
          obtain ⟨rfl, rfl⟩ := heq
          exact ⟨rfl, by rw [if_neg hc]⟩
    next heq => trivial
  · rfl
  · rfl
